import Mathlib

/-!
Shallow embedding of the ilovepdf-mcp repository core: the ILovePDFClient
task-lifecycle client (src/src/types.ts), the compress_pdf and merge_pdf tool
handlers (src/src/tools/core.ts), and the credential-resolution logic of the
CallToolRequestSchema dispatcher (src/unnamed/part_000).

Network effects are modelled explicitly: every client method takes the
responses the backend would return as arguments (an oracle for the
environment) and returns, besides its result and the updated client state, the
list of observable events (HTTP requests sent, local files written) in the
order the code performs them.  Machine time (Date.now()) is modelled by an
explicit integer parameter.
-/

/-- Model of a JavaScript string-valued expression: a missing (undefined)
argument and the empty string are both falsy, so both collapse to the empty
string. -/
def jsStr : Option String → String
  | none => ""
  | some s => s

/-- JavaScript logical-or on string values: the left operand if truthy
(non-empty), else the right operand. -/
def jsOr (a b : String) : String :=
  if a = "" then b else a

/-- JavaScript String.prototype.startsWith, via the character list so that it
reduces by kernel computation. -/
def jsStartsWith (s p : String) : Bool :=
  p.data.isPrefixOf s.data

/-- Model of Node path.basename (posix): drop trailing slashes, then take the
last slash-separated component. -/
def basename (p : String) : String :=
  let cs := (p.data.reverse.dropWhile (fun c => c = '/')).takeWhile (fun c => c ≠ '/')
  String.mk cs.reverse

/-- A backend HTTP response as observed by the client: the ok flag, the status
code and the body text (used by process/connect error messages). -/
structure HttpResponse where
  ok : Bool
  status : Nat
  bodyText : String
deriving DecidableEq

/-- The response of the POST /v1/auth endpoint. -/
structure AuthResponse where
  ok : Bool
  status : Nat
  token : String
deriving DecidableEq

/-- interface TaskInfo (src/src/types.ts lines 13-17). -/
structure TaskInfo where
  server : String
  task : String
  remaining_credits : Int
deriving DecidableEq

/-- interface UploadedFile (src/src/types.ts lines 19-21). -/
structure UploadedFile where
  server_filename : String
deriving DecidableEq

/-- interface ProcessResult (src/src/types.ts lines 23-31). -/
structure ProcessResult where
  download_filename : String
  filesize : Int
  output_filesize : Int
  output_filenumber : Int
  output_extensions : List String
  timer : String
  status : String
deriving DecidableEq

/-- One entry of the files array of a process request body
(src/src/types.ts lines 173-191). -/
structure ProcFile where
  server_filename : String
  filename : String
  password : Option String := none
  rotate : Option Int := none
deriving DecidableEq

/-- The JSON body sent to the process endpoint: task, tool, files and the
flattened tool-specific options (modelled as an association list). -/
structure ProcessBody where
  task : String
  tool : String
  files : List ProcFile
  options : List (String × String)
deriving DecidableEq

/-- The multipart form content of an upload request: either a local file
stream (form fields task, file) or a remote URL (form fields task,
cloud_file). -/
inductive UploadPayload where
  | fileStream (task filePath : String)
  | cloudFile (task url : String)
deriving DecidableEq

/-- One file entry of a signature request body. -/
structure SigFile where
  server_filename : String
  filename : String
deriving DecidableEq

/-- One signer entry of a signature request body. -/
structure Signer where
  name : String
  email : String
  order : Int
deriving DecidableEq

/-- The JSON body sent to POST /v1/signature (src/src/types.ts lines
288-296). -/
structure SignatureBody where
  task : String
  files : List SigFile
  signers : List Signer
  subject : Option String
  message : Option String
  expiration_days : Int
  reminders : Bool
deriving DecidableEq

/-- One HTTP request sent by the client, with its full URL and, where the
request is bearer-authenticated, the token it carries. -/
inductive Request where
  | auth (url public_key : String)
  | start (url token : String)
  | upload (url : String) (payload : UploadPayload) (token : String)
  | process (url : String) (body : ProcessBody) (token : String)
  | download (url token : String)
  | deleteTask (url token : String)
  | connect (url parentTask nextTool token : String)
  | signatureCreate (url : String) (body : SignatureBody) (token : String)
  | signatureList (url token : String)
  | signatureStatus (url token : String)
  | signatureDownload (url token : String)
  | signatureVoid (url token : String)
  | signatureRemind (url token : String)
deriving DecidableEq

/-- An observable effect of a client method: an HTTP request sent, or a write
of a local file. -/
inductive Event where
  | request (r : Request)
  | fsWrite (path : String)
deriving DecidableEq

/-- The Auth credential pair (src/src/types.ts lines 6-11). -/
structure Auth where
  public_key : String
  secret_key : String
deriving DecidableEq

/-- The mutable fields of class ILovePDFClient (src/src/types.ts lines
58-75). -/
structure ClientState where
  auth : Auth
  cachedToken : Option String
  tokenExpiry : Int
  apiBase : String
  isImageTool : Bool
deriving DecidableEq

/-- The ILovePDFClient constructor (src/src/types.ts lines 65-75). -/
def mkClient (publicKey secretKey : String) (isImageTool : Bool := false) : ClientState :=
  { auth := { public_key := publicKey, secret_key := secretKey }
    cachedToken := none
    tokenExpiry := 0
    apiBase := if isImageTool then "https://api.iloveimg.com" else "https://api.ilovepdf.com"
    isImageTool := isImageTool }

/-- ILovePDFClient.getToken (src/src/types.ts lines 77-96).  The cached token
is returned when it is truthy (non-null and non-empty, JS truthiness) and the
current time is before the stored expiry; otherwise one POST /v1/auth request
is sent, and on success the token is cached with expiry
now + 2 hours - 5 minutes (in milliseconds). -/
def getToken (c : ClientState) (now : Int) (resp : AuthResponse) :
    Except String String × ClientState × List Event :=
  let authenticate : Except String String × ClientState × List Event :=
    let ev := Event.request (Request.auth (c.apiBase ++ "/v1/auth") c.auth.public_key)
    if resp.ok then
      (.ok resp.token,
       { c with cachedToken := some resp.token,
                tokenExpiry := now + 2 * 60 * 60 * 1000 - 5 * 60 * 1000 },
       [ev])
    else
      (.error ("Auth failed: " ++ toString resp.status), c, [ev])
  match c.cachedToken with
  | some t => if t ≠ "" ∧ now < c.tokenExpiry then (.ok t, c, []) else authenticate
  | none => authenticate

/-- ILovePDFClient.startTask (src/src/types.ts lines 98-115): obtains a token,
overrides the region to eu when the client was constructed for the image
backend, and sends GET apiBase/v1/start/tool/effectiveRegion. -/
def startTask (c : ClientState) (tool : String) (region : String) (now : Int)
    (resp : AuthResponse) (sresp : HttpResponse) (info : TaskInfo) :
    Except String TaskInfo × ClientState × List Event :=
  match getToken c now resp with
  | (.error e, c', tr) => (.error e, c', tr)
  | (.ok token, c', tr) =>
    let effectiveRegion := if c.isImageTool then "eu" else region
    let tr := tr ++ [Event.request (Request.start
      (c.apiBase ++ "/v1/start/" ++ tool ++ "/" ++ effectiveRegion) token)]
    if sresp.ok then (.ok info, c', tr)
    else (.error ("Start task failed: " ++ toString sresp.status), c', tr)

/-- ILovePDFClient.uploadFile (src/src/types.ts lines 117-141): multipart
upload of a local file stream to the session server. -/
def uploadFile (c : ClientState) (server task filePath : String) (now : Int)
    (resp : AuthResponse) (uresp : HttpResponse) (result : UploadedFile) :
    Except String UploadedFile × ClientState × List Event :=
  match getToken c now resp with
  | (.error e, c', tr) => (.error e, c', tr)
  | (.ok token, c', tr) =>
    let tr := tr ++ [Event.request (Request.upload ("https://" ++ server ++ "/v1/upload")
      (UploadPayload.fileStream task filePath) token)]
    if uresp.ok then (.ok result, c', tr)
    else (.error ("Upload failed: " ++ toString uresp.status), c', tr)

/-- ILovePDFClient.uploadUrl (src/src/types.ts lines 143-167): upload by
remote URL (cloud_file form field) to the session server. -/
def uploadUrl (c : ClientState) (server task url : String) (now : Int)
    (resp : AuthResponse) (uresp : HttpResponse) (result : UploadedFile) :
    Except String UploadedFile × ClientState × List Event :=
  match getToken c now resp with
  | (.error e, c', tr) => (.error e, c', tr)
  | (.ok token, c', tr) =>
    let tr := tr ++ [Event.request (Request.upload ("https://" ++ server ++ "/v1/upload")
      (UploadPayload.cloudFile task url) token)]
    if uresp.ok then (.ok result, c', tr)
    else (.error ("Upload failed: " ++ toString uresp.status), c', tr)

/-- ILovePDFClient.processFiles (src/src/types.ts lines 169-210): sends the
task id, tool name, mapped file list and options to the session server. -/
def processFiles (c : ClientState) (server task tool : String)
    (files : List ProcFile) (options : List (String × String)) (now : Int)
    (resp : AuthResponse) (presp : HttpResponse) (result : ProcessResult) :
    Except String ProcessResult × ClientState × List Event :=
  match getToken c now resp with
  | (.error e, c', tr) => (.error e, c', tr)
  | (.ok token, c', tr) =>
    let body : ProcessBody :=
      { task := task, tool := tool
        files := files.map (fun f =>
          { server_filename := f.server_filename, filename := f.filename
            password := f.password, rotate := f.rotate })
        options := options }
    let tr := tr ++ [Event.request (Request.process ("https://" ++ server ++ "/v1/process") body token)]
    if presp.ok then (.ok result, c', tr)
    else (.error ("Process failed: " ++ toString presp.status ++ " - " ++ presp.bodyText), c', tr)

/-- ILovePDFClient.downloadResult (src/src/types.ts lines 212-231): fetches
the artifact and writes it to the local output path on success. -/
def downloadResult (c : ClientState) (server task outputPath : String) (now : Int)
    (resp : AuthResponse) (dresp : HttpResponse) :
    Except String Unit × ClientState × List Event :=
  match getToken c now resp with
  | (.error e, c', tr) => (.error e, c', tr)
  | (.ok token, c', tr) =>
    let tr := tr ++ [Event.request (Request.download
      ("https://" ++ server ++ "/v1/download/" ++ task) token)]
    if dresp.ok then (.ok (), c', tr ++ [Event.fsWrite outputPath])
    else (.error ("Download failed: " ++ toString dresp.status), c', tr)

/-- ILovePDFClient.deleteTask (src/src/types.ts lines 233-239): sends the
DELETE request and ignores the response entirely (the dresp argument is
deliberately unused, mirroring the missing response.ok check). -/
def deleteTask (c : ClientState) (server task : String) (now : Int)
    (resp : AuthResponse) (dresp : HttpResponse) :
    Except String Unit × ClientState × List Event :=
  match getToken c now resp with
  | (.error e, c', tr) => (.error e, c', tr)
  | (.ok token, c', tr) =>
    (.ok (), c', tr ++ [Event.request (Request.deleteTask
      ("https://" ++ server ++ "/v1/task/" ++ task) token)])

/-- ILovePDFClient.connectTask (src/src/types.ts lines 246-270): POST
apiBase/v1/task/next with the parent task id and the next tool name. -/
def connectTask (c : ClientState) (parentTask nextTool : String) (now : Int)
    (resp : AuthResponse) (nresp : HttpResponse)
    (result : String × String × List (String × String)) :
    Except String (String × String × List (String × String)) × ClientState × List Event :=
  match getToken c now resp with
  | (.error e, c', tr) => (.error e, c', tr)
  | (.ok token, c', tr) =>
    let tr := tr ++ [Event.request (Request.connect (c.apiBase ++ "/v1/task/next")
      parentTask nextTool token)]
    if nresp.ok then (.ok result, c', tr)
    else (.error ("Connect task failed: " ++ toString nresp.status ++ " - " ++ nresp.bodyText), c', tr)

/-- Parameters of ILovePDFClient.createSignature (src/src/types.ts lines
272-280). -/
structure SignatureParams where
  task : String
  files : List SigFile
  signers : List Signer
  subject : Option String := none
  message : Option String := none
  expiration_days : Option Int := none
  reminders : Option Bool := none
deriving DecidableEq

/-- ILovePDFClient.createSignature (src/src/types.ts lines 272-306): POST
apiBase/v1/signature; expiration_days defaults to 15 under JS falsiness and
reminders is true unless explicitly false. -/
def createSignature (c : ClientState) (params : SignatureParams) (now : Int)
    (resp : AuthResponse) (sresp : HttpResponse) (sigToken : String) :
    Except String String × ClientState × List Event :=
  match getToken c now resp with
  | (.error e, c', tr) => (.error e, c', tr)
  | (.ok token, c', tr) =>
    let body : SignatureBody :=
      { task := params.task, files := params.files, signers := params.signers
        subject := params.subject, message := params.message
        expiration_days :=
          match params.expiration_days with
          | none => 15
          | some n => if n = 0 then 15 else n
        reminders :=
          match params.reminders with
          | some false => false
          | _ => true }
    let tr := tr ++ [Event.request (Request.signatureCreate (c.apiBase ++ "/v1/signature") body token)]
    if sresp.ok then (.ok sigToken, c', tr)
    else (.error ("Create signature failed: " ++ toString sresp.status ++ " - " ++ sresp.bodyText), c', tr)

/-- Query string built by ILovePDFClient.listSignatures (src/src/types.ts
lines 313-316): secret_key always, page and status only when truthy. -/
def listSignaturesQuery (c : ClientState) (page : Option Int) (status : Option String) : String :=
  let q := "secret_key=" ++ c.auth.secret_key
  let q := match page with
    | some p => if p = 0 then q else q ++ "&page=" ++ toString p
    | none => q
  match status with
  | some s => if s = "" then q else q ++ "&status=" ++ s
  | none => q

/-- ILovePDFClient.listSignatures (src/src/types.ts lines 308-331). -/
def listSignatures (c : ClientState) (page : Option Int) (status : Option String) (now : Int)
    (resp : AuthResponse) (lresp : HttpResponse) (result : String) :
    Except String String × ClientState × List Event :=
  match getToken c now resp with
  | (.error e, c', tr) => (.error e, c', tr)
  | (.ok token, c', tr) =>
    let tr := tr ++ [Event.request (Request.signatureList
      (c.apiBase ++ "/v1/signature?" ++ listSignaturesQuery c page status) token)]
    if lresp.ok then (.ok result, c', tr)
    else (.error ("List signatures failed: " ++ toString lresp.status), c', tr)

/-- ILovePDFClient.getSignatureStatus (src/src/types.ts lines 333-348). -/
def getSignatureStatus (c : ClientState) (signatureToken : String) (now : Int)
    (resp : AuthResponse) (gresp : HttpResponse) (result : String) :
    Except String String × ClientState × List Event :=
  match getToken c now resp with
  | (.error e, c', tr) => (.error e, c', tr)
  | (.ok token, c', tr) =>
    let tr := tr ++ [Event.request (Request.signatureStatus
      (c.apiBase ++ "/v1/signature/" ++ signatureToken) token)]
    if gresp.ok then (.ok result, c', tr)
    else (.error ("Get signature failed: " ++ toString gresp.status), c', tr)

/-- ILovePDFClient.downloadSignedFiles (src/src/types.ts lines 350-370). -/
def downloadSignedFiles (c : ClientState) (signatureToken outputPath : String) (now : Int)
    (resp : AuthResponse) (dresp : HttpResponse) :
    Except String Unit × ClientState × List Event :=
  match getToken c now resp with
  | (.error e, c', tr) => (.error e, c', tr)
  | (.ok token, c', tr) =>
    let tr := tr ++ [Event.request (Request.signatureDownload
      (c.apiBase ++ "/v1/signature/" ++ signatureToken ++ "/download") token)]
    if dresp.ok then (.ok (), c', tr ++ [Event.fsWrite outputPath])
    else (.error ("Download signed files failed: " ++ toString dresp.status), c', tr)

/-- ILovePDFClient.voidSignature (src/src/types.ts lines 372-385). -/
def voidSignature (c : ClientState) (signatureToken : String) (now : Int)
    (resp : AuthResponse) (vresp : HttpResponse) :
    Except String Unit × ClientState × List Event :=
  match getToken c now resp with
  | (.error e, c', tr) => (.error e, c', tr)
  | (.ok token, c', tr) =>
    let tr := tr ++ [Event.request (Request.signatureVoid
      (c.apiBase ++ "/v1/signature/" ++ signatureToken ++ "/void") token)]
    if vresp.ok then (.ok (), c', tr)
    else (.error ("Void signature failed: " ++ toString vresp.status), c', tr)

/-- ILovePDFClient.sendSignatureReminder (src/src/types.ts lines 387-400). -/
def sendSignatureReminder (c : ClientState) (signatureToken : String) (now : Int)
    (resp : AuthResponse) (rresp : HttpResponse) :
    Except String Unit × ClientState × List Event :=
  match getToken c now resp with
  | (.error e, c', tr) => (.error e, c', tr)
  | (.ok token, c', tr) =>
    let tr := tr ++ [Event.request (Request.signatureRemind
      (c.apiBase ++ "/v1/signature/" ++ signatureToken ++ "/remind") token)]
    if rresp.ok then (.ok (), c', tr)
    else (.error ("Send reminder failed: " ++ toString rresp.status), c', tr)

/-- Arguments of the compress_pdf handler that the code reads
(src/src/tools/core.ts lines 34-90).  A missing optional string argument is
modelled as none; keep_task models JS truthiness of args.keep_task. -/
structure CompressArgs where
  file : String
  output : String
  compression_level : Option String := none
  keep_task : Bool := false
deriving DecidableEq

/-- Environment oracle for one compress_pdf invocation: the machine time and
the backend responses each step would observe. -/
structure CompressEnv where
  now : Int
  auth : AuthResponse
  startResp : HttpResponse
  startInfo : TaskInfo
  uploadResp : HttpResponse
  uploaded : UploadedFile
  processResp : HttpResponse
  processResult : ProcessResult
  downloadResp : HttpResponse
  deleteResp : HttpResponse

/-- The compress_pdf tool handler (src/src/tools/core.ts lines 34-90):
start task, upload (URL variant iff the file reference starts with "http"),
process with the compression_level option, then either return early with the
task id and server (keep_task) or download, delete and report the output
path. -/
def compressHandler (args : CompressArgs) (c : ClientState) (env : CompressEnv) :
    Except String (List (String × String)) × ClientState × List Event :=
  match startTask c "compress" "us" env.now env.auth env.startResp env.startInfo with
  | (.error e, c1, tr1) => (.error e, c1, tr1)
  | (.ok taskInfo, c1, tr1) =>
    let isUrl := jsStartsWith args.file "http"
    match (if isUrl then
            uploadUrl c1 taskInfo.server taskInfo.task args.file env.now env.auth
              env.uploadResp env.uploaded
           else
            uploadFile c1 taskInfo.server taskInfo.task args.file env.now env.auth
              env.uploadResp env.uploaded) with
    | (.error e, c2, tr2) => (.error e, c2, tr1 ++ tr2)
    | (.ok uploaded, c2, tr2) =>
      match processFiles c2 taskInfo.server taskInfo.task "compress"
          [{ server_filename := uploaded.server_filename
             filename := basename args.file }]
          [("compression_level", jsOr (jsStr args.compression_level) "recommended")]
          env.now env.auth env.processResp env.processResult with
      | (.error e, c3, tr3) => (.error e, c3, tr1 ++ tr2 ++ tr3)
      | (.ok _, c3, tr3) =>
        if args.keep_task then
          (.ok [("text",
            "PDF compressed (task kept for chaining)!\nTask ID: " ++ taskInfo.task ++
            "\nServer: " ++ taskInfo.server ++
            "\nRemaining credits: " ++ toString taskInfo.remaining_credits ++
            "\n\nNext: Use chain_tasks to apply another tool, then download the result.")],
           c3, tr1 ++ tr2 ++ tr3)
        else
          match downloadResult c3 taskInfo.server taskInfo.task args.output env.now env.auth
              env.downloadResp with
          | (.error e, c4, tr4) => (.error e, c4, tr1 ++ tr2 ++ tr3 ++ tr4)
          | (.ok _, c4, tr4) =>
            match deleteTask c4 taskInfo.server taskInfo.task env.now env.auth env.deleteResp with
            | (.error e, c5, tr5) => (.error e, c5, tr1 ++ tr2 ++ tr3 ++ tr4 ++ tr5)
            | (.ok _, c5, tr5) =>
              (.ok [("text",
                "PDF compressed successfully!\nOutput: " ++ args.output ++
                "\nRemaining credits: " ++ toString taskInfo.remaining_credits)],
               c5, tr1 ++ tr2 ++ tr3 ++ tr4 ++ tr5)

/-- Environment oracle for one merge_pdf invocation; the upload responses are
indexed by the position of the file in the caller-supplied list. -/
structure MergeEnv where
  now : Int
  auth : AuthResponse
  startResp : HttpResponse
  startInfo : TaskInfo
  uploadResp : Nat → HttpResponse
  uploaded : Nat → UploadedFile
  processResp : HttpResponse
  processResult : ProcessResult
  downloadResp : HttpResponse
  deleteResp : HttpResponse

/-- The upload loop of the merge_pdf handler (src/src/tools/core.ts lines
116-125): each file is uploaded in turn (URL variant iff it starts with
"http") and its reference appended in the same order. -/
def mergeUploadLoop (server task : String) (env : MergeEnv) :
    ClientState → List String → Nat →
    Except String (List ProcFile) × ClientState × List Event
  | c, [], _ => (.ok [], c, [])
  | c, file :: rest, i =>
    let isUrl := jsStartsWith file "http"
    match (if isUrl then
            uploadUrl c server task file env.now env.auth (env.uploadResp i) (env.uploaded i)
           else
            uploadFile c server task file env.now env.auth (env.uploadResp i) (env.uploaded i)) with
    | (.error e, c', tr) => (.error e, c', tr)
    | (.ok up, c', tr) =>
      match mergeUploadLoop server task env c' rest (i + 1) with
      | (.error e, c'', tr') => (.error e, c'', tr ++ tr')
      | (.ok restRefs, c'', tr') =>
        (.ok ({ server_filename := up.server_filename, filename := basename file } :: restRefs),
         c'', tr ++ tr')

/-- The merge_pdf tool handler (src/src/tools/core.ts lines 111-148): start a
merge task, upload all files sequentially in caller order, process with the
accumulated reference list, download and delete. -/
def mergeHandler (files : List String) (output : String) (c : ClientState) (env : MergeEnv) :
    Except String (List (String × String)) × ClientState × List Event :=
  match startTask c "merge" "us" env.now env.auth env.startResp env.startInfo with
  | (.error e, c1, tr1) => (.error e, c1, tr1)
  | (.ok taskInfo, c1, tr1) =>
    match mergeUploadLoop taskInfo.server taskInfo.task env c1 files 0 with
    | (.error e, c2, tr2) => (.error e, c2, tr1 ++ tr2)
    | (.ok uploadedFiles, c2, tr2) =>
      match processFiles c2 taskInfo.server taskInfo.task "merge" uploadedFiles []
          env.now env.auth env.processResp env.processResult with
      | (.error e, c3, tr3) => (.error e, c3, tr1 ++ tr2 ++ tr3)
      | (.ok _, c3, tr3) =>
        match downloadResult c3 taskInfo.server taskInfo.task output env.now env.auth
            env.downloadResp with
        | (.error e, c4, tr4) => (.error e, c4, tr1 ++ tr2 ++ tr3 ++ tr4)
        | (.ok _, c4, tr4) =>
          match deleteTask c4 taskInfo.server taskInfo.task env.now env.auth env.deleteResp with
          | (.error e, c5, tr5) => (.error e, c5, tr1 ++ tr2 ++ tr3 ++ tr4 ++ tr5)
          | (.ok _, c5, tr5) =>
            (.ok [("text",
              "PDFs merged successfully!\nOutput: " ++ output ++
              "\nFiles merged: " ++ toString files.length)],
             c5, tr1 ++ tr2 ++ tr3 ++ tr4 ++ tr5)

/-- The process-wide environment variables the dispatcher reads
(src/unnamed/part_000 lines 74-75). -/
structure EnvVars where
  ILOVEPDF_PUBLIC_KEY : Option String := none
  PUBLIC_KEY : Option String := none
  ILOVEPDF_SECRET_KEY : Option String := none
  SECRET_KEY : Option String := none
deriving DecidableEq

/-- One content entry of a tool result. -/
structure ToolContent where
  type : String
  text : String
deriving DecidableEq

/-- The value returned to the tool-invocation transport. -/
structure ToolResult where
  content : List ToolContent
  isError : Bool := false
deriving DecidableEq

/-- Outcome of the credential-resolution part of the CallToolRequestSchema
handler (src/unnamed/part_000 lines 66-88): either the early error return
(before any client is constructed and before any network call), or the keys a
fresh ILovePDFClient is constructed from. -/
inductive DispatchOutcome where
  | errorResult (r : ToolResult)
  | runTool (publicKey secretKey : String) (isImageTool : Bool)
deriving DecidableEq

/-- Help text of the image-tool missing-credential error
(src/unnamed/part_000 line 80). -/
def imageHelpText : String :=
  "Image tools require an iLoveIMG project. Create one at https://www.iloveapi.com/user/projects and use image_public_key parameter. Or set ILOVEPDF_PUBLIC_KEY and ILOVEPDF_SECRET_KEY environment variables."

/-- Help text of the document-tool missing-credential error
(src/unnamed/part_000 line 81). -/
def pdfHelpText : String :=
  "public_key and secret_key are required. Get free API keys from https://www.iloveapi.com/user/projects or set ILOVEPDF_PUBLIC_KEY and ILOVEPDF_SECRET_KEY environment variables."

/-- The per-call public key the dispatcher reads (src/unnamed/part_000 lines
68-70): for image tools, image_public_key with public_key as JS-or fallback;
otherwise public_key. -/
def perCallPublicKey (isImageTool : Bool) (argImagePublic argPublic : Option String) : String :=
  if isImageTool then jsOr (jsStr argImagePublic) (jsStr argPublic) else jsStr argPublic

/-- Credential resolution of the CallToolRequestSchema handler
(src/unnamed/part_000 lines 66-88): if either per-call key is falsy, BOTH keys
are replaced by the environment-sourced values; if either is still falsy the
handler returns the error result, otherwise a client is constructed from the
resolved pair. -/
def dispatchCredentials (isImageTool : Bool) (argImagePublic argPublic argSecret : Option String)
    (env : EnvVars) : DispatchOutcome :=
  let publicKey0 := perCallPublicKey isImageTool argImagePublic argPublic
  let secretKey0 := jsStr argSecret
  let publicKey := if publicKey0 = "" ∨ secretKey0 = "" then
      jsOr (jsStr env.ILOVEPDF_PUBLIC_KEY) (jsStr env.PUBLIC_KEY)
    else publicKey0
  let secretKey := if publicKey0 = "" ∨ secretKey0 = "" then
      jsOr (jsStr env.ILOVEPDF_SECRET_KEY) (jsStr env.SECRET_KEY)
    else secretKey0
  if publicKey = "" ∨ secretKey = "" then
    .errorResult
      { content := [{ type := "text"
                      text := "Error: " ++ (if isImageTool then imageHelpText else pdfHelpText) }]
        isError := true }
  else
    .runTool publicKey secretKey isImageTool

/-- Events a full dispatch produces: the early error return happens before the
client is constructed, so it produces no events at all; otherwise the events
are those of the tool handler run. -/
def dispatchRunEvents (o : DispatchOutcome) (handlerEvents : List Event) : List Event :=
  match o with
  | .errorResult _ => []
  | .runTool _ _ _ => handlerEvents

/-- The client a dispatch constructs, if any (src/unnamed/part_000 line 88). -/
def dispatchedClient (o : DispatchOutcome) : Option ClientState :=
  match o with
  | .errorResult _ => none
  | .runTool pk sk iit => some (mkClient pk sk iit)

/-- The full argument bag of a compress_pdf call as the dispatcher and the
handler read it.  compress_pdf is not in IMAGE_TOOL_NAMES, so isImageTool is
false and image_public_key is never read. -/
structure CompressCallArgs where
  public_key : Option String := none
  secret_key : Option String := none
  file : String
  output : String
  compression_level : Option String := none
  keep_task : Bool := false
deriving DecidableEq

/-- One full dispatch of a compress_pdf tool call (src/unnamed/part_000 lines
54-103): resolve credentials; on success construct a FRESH ILovePDFClient
(line 88) and run the handler, wrapping a thrown error into an Error: result.
The returned trace is the list of network and filesystem events of this
invocation. -/
def dispatchCompressCall (args : CompressCallArgs) (env : EnvVars) (cenv : CompressEnv) :
    ToolResult × List Event :=
  match dispatchCredentials false none args.public_key args.secret_key env with
  | .errorResult r => (r, [])
  | .runTool pk sk iit =>
    match compressHandler
        { file := args.file, output := args.output
          compression_level := args.compression_level, keep_task := args.keep_task }
        (mkClient pk sk iit) cenv with
    | (.ok content, _, tr) =>
      ({ content := content.map (fun p => { type := p.1, text := p.2 }) }, tr)
    | (.error e, _, tr) =>
      ({ content := [{ type := "text", text := "Error: " ++ e }], isError := true }, tr)

/-- The upload payloads occurring in a trace, in order. -/
def uploadPayloads (tr : List Event) : List UploadPayload :=
  tr.filterMap (fun e =>
    match e with
    | .request (.upload _ p _) => some p
    | _ => none)

/-- The file lists of the process request bodies occurring in a trace, in
order. -/
def processedFileLists (tr : List Event) : List (List ProcFile) :=
  tr.filterMap (fun e =>
    match e with
    | .request (.process _ body _) => some body.files
    | _ => none)

/-- Number of POST /v1/auth requests in a trace. -/
def countAuthRequests (tr : List Event) : Nat :=
  (tr.filter (fun e =>
    match e with
    | .request (.auth _ _) => true
    | _ => false)).length

/-- Whether an event is part of result retrieval or teardown: a download
request, a task DELETE request, or a local file write. -/
def isTeardownEvent : Event → Bool
  | .request (.download _ _) => true
  | .request (.deleteTask _ _) => true
  | .fsWrite _ => true
  | _ => false

/-- The URL of the HTTP request of an event, if the event is a request. -/
def eventUrl : Event → Option String
  | .request (.auth u _) => some u
  | .request (.start u _) => some u
  | .request (.upload u _ _) => some u
  | .request (.process u _ _) => some u
  | .request (.download u _) => some u
  | .request (.deleteTask u _) => some u
  | .request (.connect u _ _ _) => some u
  | .request (.signatureCreate u _ _) => some u
  | .request (.signatureList u _) => some u
  | .request (.signatureStatus u _) => some u
  | .request (.signatureDownload u _) => some u
  | .request (.signatureVoid u _) => some u
  | .request (.signatureRemind u _) => some u
  | .fsWrite _ => none

/-- JS truthiness of the cached token combined with the expiry check, exactly
the guard of getToken. -/
def hasValidCachedToken (c : ClientState) (now : Int) : Bool :=
  match c.cachedToken with
  | some t => decide (t ≠ "") && decide (now < c.tokenExpiry)
  | none => false

/-- Modelled from the spec: a file reference that starts with an HTTP(S)
scheme in the strict sense of the spec sentence, i.e. with http:// or
https://.  The code itself tests only the four-character literal "http"; this
definition exists to compare the two (claim C5). -/
def specUsesHttpScheme (s : String) : Bool :=
  jsStartsWith s "http://" || jsStartsWith s "https://"

/-- The file references the merge upload loop accumulates, written out
explicitly: the entry at position j pairs the server filename of upload i+j
with the basename of the j-th remaining input file. -/
def mergeUploadRefs (env : MergeEnv) : List String → Nat → List ProcFile
  | [], _ => []
  | f :: rest, i =>
    { server_filename := (env.uploaded i).server_filename, filename := basename f } ::
      mergeUploadRefs env rest (i + 1)

/-- A successful HTTP response used by concrete witnesses. -/
def okResp : HttpResponse := { ok := true, status := 200, bodyText := "" }

/-- A failing HTTP response used by concrete witnesses. -/
def notFoundResp : HttpResponse := { ok := false, status := 404, bodyText := "not found" }

/-- A successful auth response used by concrete witnesses. -/
def okAuth : AuthResponse := { ok := true, status := 200, token := "tok1" }

/-- A concrete process result used by concrete witnesses. -/
def sampleProcessResult : ProcessResult :=
  { download_filename := "out.pdf", filesize := 1000, output_filesize := 500
    output_filenumber := 1, output_extensions := ["pdf"], timer := "0.5", status := "TaskSuccess" }

/-- A concrete task-start response used by concrete witnesses. -/
def sampleTaskInfo : TaskInfo :=
  { server := "api1.ilovepdf.com", task := "task1", remaining_credits := 100 }

/-- A fully successful compress environment at a given time. -/
def okCompressEnv (now : Int) : CompressEnv :=
  { now := now, auth := okAuth, startResp := okResp, startInfo := sampleTaskInfo
    uploadResp := okResp, uploaded := { server_filename := "sf1" }
    processResp := okResp, processResult := sampleProcessResult
    downloadResp := okResp, deleteResp := notFoundResp }

/-- A fully successful merge environment. -/
def okMergeEnv : MergeEnv :=
  { now := 0, auth := okAuth, startResp := okResp, startInfo := sampleTaskInfo
    uploadResp := fun _ => okResp
    uploaded := fun i => { server_filename := "sf" ++ toString i }
    processResp := okResp, processResult := sampleProcessResult
    downloadResp := okResp, deleteResp := okResp }

/-- Environment variables holding a full credential pair. -/
def sampleEnvVars : EnvVars :=
  { ILOVEPDF_PUBLIC_KEY := some "env_pub", PUBLIC_KEY := none
    ILOVEPDF_SECRET_KEY := some "env_sec", SECRET_KEY := none }

/-- A compress_pdf call with full per-call credentials and a local input
file. -/
def sampleCompressArgs : CompressCallArgs :=
  { public_key := some "env_pub", secret_key := some "env_sec"
    file := "/tmp/in.pdf", output := "/tmp/out.pdf" }

/-- The client state after the first successful authentication of a fresh
client: the token is cached with expiry now + 2 hours - 5 minutes. -/
def clientAfterAuth (pk sk : String) (isImage : Bool) (now : Int) (token : String) : ClientState :=
  { mkClient pk sk isImage with
      cachedToken := some token
      tokenExpiry := now + 2 * 60 * 60 * 1000 - 5 * 60 * 1000 }

/-- The auth request a fresh document-backend client sends. -/
def pdfAuthEvent (pk : String) : Event :=
  Event.request (Request.auth "https://api.ilovepdf.com/v1/auth" pk)

/-- The start request of the compress_pdf handler (document backend, default
region us). -/
def compressStartEvent (env : CompressEnv) : Event :=
  Event.request (Request.start "https://api.ilovepdf.com/v1/start/compress/us" env.auth.token)

/-- The upload request of the compress_pdf handler: URL variant iff the file
reference starts with "http". -/
def compressUploadEvent (args : CompressArgs) (env : CompressEnv) : Event :=
  Event.request (Request.upload ("https://" ++ env.startInfo.server ++ "/v1/upload")
    (if jsStartsWith args.file "http" then UploadPayload.cloudFile env.startInfo.task args.file
     else UploadPayload.fileStream env.startInfo.task args.file) env.auth.token)

/-- The process request of the compress_pdf handler. -/
def compressProcessEvent (args : CompressArgs) (env : CompressEnv) : Event :=
  Event.request (Request.process ("https://" ++ env.startInfo.server ++ "/v1/process")
    { task := env.startInfo.task, tool := "compress"
      files := [{ server_filename := env.uploaded.server_filename
                  filename := basename args.file }]
      options := [("compression_level", jsOr (jsStr args.compression_level) "recommended")] }
    env.auth.token)

/-- The events of the download-then-delete tail of the compress_pdf handler
(only reached when keep_task is false). -/
def compressTeardownEvents (args : CompressArgs) (env : CompressEnv) : List Event :=
  [Event.request (Request.download
      ("https://" ++ env.startInfo.server ++ "/v1/download/" ++ env.startInfo.task)
      env.auth.token),
   Event.fsWrite args.output,
   Event.request (Request.deleteTask
      ("https://" ++ env.startInfo.server ++ "/v1/task/" ++ env.startInfo.task)
      env.auth.token)]

/-- The upload request the merge loop sends for one input file. -/
def mergeUploadEvent (server task token f : String) : Event :=
  Event.request (Request.upload ("https://" ++ server ++ "/v1/upload")
    (if jsStartsWith f "http" then UploadPayload.cloudFile task f
     else UploadPayload.fileStream task f) token)

/-- The start request of the merge_pdf handler. -/
def mergeStartEvent (env : MergeEnv) : Event :=
  Event.request (Request.start "https://api.ilovepdf.com/v1/start/merge/us" env.auth.token)

/-- The process request of the merge_pdf handler on a given ordered reference
list. -/
def mergeProcessEvent (env : MergeEnv) (refs : List ProcFile) : Event :=
  Event.request (Request.process ("https://" ++ env.startInfo.server ++ "/v1/process")
    { task := env.startInfo.task, tool := "merge", files := refs, options := [] }
    env.auth.token)

/-- The events of the download-then-delete tail of the merge_pdf handler. -/
def mergeTeardownEvents (output : String) (env : MergeEnv) : List Event :=
  [Event.request (Request.download
      ("https://" ++ env.startInfo.server ++ "/v1/download/" ++ env.startInfo.task)
      env.auth.token),
   Event.fsWrite output,
   Event.request (Request.deleteTask
      ("https://" ++ env.startInfo.server ++ "/v1/task/" ++ env.startInfo.task)
      env.auth.token)]

/-- A client whose cached token has already expired (expiry instant 50),
used by concrete witnesses. -/
def expiredClient : ClientState :=
  { mkClient "p" "s" false with cachedToken := some "old", tokenExpiry := 50 }

theorem getToken_cacheHit (c : ClientState) (t : String) (now : Int) (resp : AuthResponse)
    (h1 : c.cachedToken = some t) (h2 : t ≠ "") (h3 : now < c.tokenExpiry) :
    getToken c now resp = (.ok t, c, []) := by
  simp [getToken, h1, h2, h3]

theorem getToken_noCache (c : ClientState) (now : Int) (resp : AuthResponse)
    (h1 : c.cachedToken = none) (h2 : resp.ok = true) :
    getToken c now resp =
      (.ok resp.token,
       { c with cachedToken := some resp.token,
                tokenExpiry := now + 2 * 60 * 60 * 1000 - 5 * 60 * 1000 },
       [Event.request (Request.auth (c.apiBase ++ "/v1/auth") c.auth.public_key)]) := by
  simp [getToken, h1, h2]

theorem getToken_expired (c : ClientState) (now : Int) (resp : AuthResponse)
    (h1 : c.tokenExpiry ≤ now) (h2 : resp.ok = true) :
    getToken c now resp =
      (.ok resp.token,
       { c with cachedToken := some resp.token,
                tokenExpiry := now + 2 * 60 * 60 * 1000 - 5 * 60 * 1000 },
       [Event.request (Request.auth (c.apiBase ++ "/v1/auth") c.auth.public_key)]) := by
  have hnot : ¬ now < c.tokenExpiry := by omega
  cases hc : c.cachedToken with
  | none => simp [getToken, hc, h2]
  | some t => simp [getToken, hc, hnot, h2]

theorem uploadFile_cached (c : ClientState) (t server task fp : String) (now : Int)
    (resp : AuthResponse) (uresp : HttpResponse) (result : UploadedFile)
    (h1 : c.cachedToken = some t) (h2 : t ≠ "") (h3 : now < c.tokenExpiry)
    (h4 : uresp.ok = true) :
    uploadFile c server task fp now resp uresp result =
      (.ok result, c,
       [Event.request (Request.upload ("https://" ++ server ++ "/v1/upload")
          (UploadPayload.fileStream task fp) t)]) := by
  simp [uploadFile, getToken_cacheHit c t now resp h1 h2 h3, h4]

theorem uploadUrl_cached (c : ClientState) (t server task url : String) (now : Int)
    (resp : AuthResponse) (uresp : HttpResponse) (result : UploadedFile)
    (h1 : c.cachedToken = some t) (h2 : t ≠ "") (h3 : now < c.tokenExpiry)
    (h4 : uresp.ok = true) :
    uploadUrl c server task url now resp uresp result =
      (.ok result, c,
       [Event.request (Request.upload ("https://" ++ server ++ "/v1/upload")
          (UploadPayload.cloudFile task url) t)]) := by
  simp [uploadUrl, getToken_cacheHit c t now resp h1 h2 h3, h4]

theorem procFile_eta_map (files : List ProcFile) :
    files.map (fun f =>
      ({ server_filename := f.server_filename, filename := f.filename
         password := f.password, rotate := f.rotate } : ProcFile)) = files := by
  induction files with
  | nil => rfl
  | cons f rest ih => simp [ih]

theorem processFiles_cached (c : ClientState) (t server task tool : String)
    (files : List ProcFile) (options : List (String × String)) (now : Int)
    (resp : AuthResponse) (presp : HttpResponse) (result : ProcessResult)
    (h1 : c.cachedToken = some t) (h2 : t ≠ "") (h3 : now < c.tokenExpiry)
    (h4 : presp.ok = true) :
    processFiles c server task tool files options now resp presp result =
      (.ok result, c,
       [Event.request (Request.process ("https://" ++ server ++ "/v1/process")
          { task := task, tool := tool, files := files, options := options } t)]) := by
  simp [processFiles, getToken_cacheHit c t now resp h1 h2 h3, h4, procFile_eta_map]

theorem downloadResult_cached (c : ClientState) (t server task outputPath : String) (now : Int)
    (resp : AuthResponse) (dresp : HttpResponse)
    (h1 : c.cachedToken = some t) (h2 : t ≠ "") (h3 : now < c.tokenExpiry)
    (h4 : dresp.ok = true) :
    downloadResult c server task outputPath now resp dresp =
      (.ok (), c,
       [Event.request (Request.download ("https://" ++ server ++ "/v1/download/" ++ task) t),
        Event.fsWrite outputPath]) := by
  simp [downloadResult, getToken_cacheHit c t now resp h1 h2 h3, h4]

theorem deleteTask_cached (c : ClientState) (t server task : String) (now : Int)
    (resp : AuthResponse) (dresp : HttpResponse)
    (h1 : c.cachedToken = some t) (h2 : t ≠ "") (h3 : now < c.tokenExpiry) :
    deleteTask c server task now resp dresp =
      (.ok (), c,
       [Event.request (Request.deleteTask ("https://" ++ server ++ "/v1/task/" ++ task) t)]) := by
  simp [deleteTask, getToken_cacheHit c t now resp h1 h2 h3]

theorem startTask_fresh (pk sk : String) (iit : Bool) (tool region : String) (now : Int)
    (resp : AuthResponse) (sresp : HttpResponse) (info : TaskInfo)
    (hA : resp.ok = true) (hS : sresp.ok = true) :
    startTask (mkClient pk sk iit) tool region now resp sresp info =
      (.ok info, clientAfterAuth pk sk iit now resp.token,
       [Event.request (Request.auth ((mkClient pk sk iit).apiBase ++ "/v1/auth") pk),
        Event.request (Request.start ((mkClient pk sk iit).apiBase ++ "/v1/start/" ++ tool ++
          "/" ++ (if iit then "eu" else region)) resp.token)]) := by
  have h0 : (mkClient pk sk iit).cachedToken = none := rfl
  have hg := getToken_noCache (mkClient pk sk iit) now resp h0 hA
  have hpub : (mkClient pk sk iit).auth.public_key = pk := rfl
  have himg : (mkClient pk sk iit).isImageTool = iit := rfl
  rw [hpub] at hg
  simp [startTask, hg, hS, himg, clientAfterAuth]

theorem clientAfterAuth_cachedToken (pk sk : String) (iit : Bool) (now : Int) (token : String) :
    (clientAfterAuth pk sk iit now token).cachedToken = some token := rfl

theorem clientAfterAuth_expiry_lt (pk sk : String) (iit : Bool) (now : Int) (token : String) :
    now < (clientAfterAuth pk sk iit now token).tokenExpiry := by
  simp [clientAfterAuth, mkClient]
  omega

theorem compressHandler_keepTask (args : CompressArgs) (pk sk : String) (env : CompressEnv)
    (hK : args.keep_task = true)
    (hA : env.auth.ok = true) (hT : env.auth.token ≠ "")
    (hS : env.startResp.ok = true) (hU : env.uploadResp.ok = true)
    (hP : env.processResp.ok = true) :
    compressHandler args (mkClient pk sk false) env =
      (.ok [("text",
        "PDF compressed (task kept for chaining)!\nTask ID: " ++ env.startInfo.task ++
        "\nServer: " ++ env.startInfo.server ++
        "\nRemaining credits: " ++ toString env.startInfo.remaining_credits ++
        "\n\nNext: Use chain_tasks to apply another tool, then download the result.")],
       clientAfterAuth pk sk false env.now env.auth.token,
       [pdfAuthEvent pk, compressStartEvent env,
        compressUploadEvent args env, compressProcessEvent args env]) := by
  have hstart := startTask_fresh pk sk false "compress" "us" env.now env.auth env.startResp
    env.startInfo hA hS
  set c1 := clientAfterAuth pk sk false env.now env.auth.token with hc1
  have hc1tok : c1.cachedToken = some env.auth.token := rfl
  have hc1exp : env.now < c1.tokenExpiry := clientAfterAuth_expiry_lt pk sk false env.now _
  have hproc := processFiles_cached c1 env.auth.token env.startInfo.server env.startInfo.task
    "compress"
    [{ server_filename := env.uploaded.server_filename, filename := basename args.file }]
    [("compression_level", jsOr (jsStr args.compression_level) "recommended")]
    env.now env.auth env.processResp env.processResult hc1tok hT hc1exp hP
  by_cases hurl : jsStartsWith args.file "http" = true
  · have hup := uploadUrl_cached c1 env.auth.token env.startInfo.server env.startInfo.task
      args.file env.now env.auth env.uploadResp env.uploaded hc1tok hT hc1exp hU
    simp only [compressHandler, hstart, hurl, hup, hproc, hK, ite_true, compressUploadEvent]
    rfl
  · have hurl' : jsStartsWith args.file "http" = false := by
      revert hurl; cases jsStartsWith args.file "http" <;> simp
    have hup := uploadFile_cached c1 env.auth.token env.startInfo.server env.startInfo.task
      args.file env.now env.auth env.uploadResp env.uploaded hc1tok hT hc1exp hU
    simp only [compressHandler, hstart, hurl', hup, hproc, hK, ite_true, ite_false,
      Bool.false_eq_true, compressUploadEvent]
    rfl

theorem compressHandler_fullRun (args : CompressArgs) (pk sk : String) (env : CompressEnv)
    (hK : args.keep_task = false)
    (hA : env.auth.ok = true) (hT : env.auth.token ≠ "")
    (hS : env.startResp.ok = true) (hU : env.uploadResp.ok = true)
    (hP : env.processResp.ok = true) (hD : env.downloadResp.ok = true) :
    compressHandler args (mkClient pk sk false) env =
      (.ok [("text",
        "PDF compressed successfully!\nOutput: " ++ args.output ++
        "\nRemaining credits: " ++ toString env.startInfo.remaining_credits)],
       clientAfterAuth pk sk false env.now env.auth.token,
       [pdfAuthEvent pk, compressStartEvent env,
        compressUploadEvent args env, compressProcessEvent args env] ++
       compressTeardownEvents args env) := by
  have hstart := startTask_fresh pk sk false "compress" "us" env.now env.auth env.startResp
    env.startInfo hA hS
  set c1 := clientAfterAuth pk sk false env.now env.auth.token with hc1
  have hc1tok : c1.cachedToken = some env.auth.token := rfl
  have hc1exp : env.now < c1.tokenExpiry := clientAfterAuth_expiry_lt pk sk false env.now _
  have hproc := processFiles_cached c1 env.auth.token env.startInfo.server env.startInfo.task
    "compress"
    [{ server_filename := env.uploaded.server_filename, filename := basename args.file }]
    [("compression_level", jsOr (jsStr args.compression_level) "recommended")]
    env.now env.auth env.processResp env.processResult hc1tok hT hc1exp hP
  have hdl := downloadResult_cached c1 env.auth.token env.startInfo.server env.startInfo.task
    args.output env.now env.auth env.downloadResp hc1tok hT hc1exp hD
  have hdel := deleteTask_cached c1 env.auth.token env.startInfo.server env.startInfo.task
    env.now env.auth env.deleteResp hc1tok hT hc1exp
  by_cases hurl : jsStartsWith args.file "http" = true
  · have hup := uploadUrl_cached c1 env.auth.token env.startInfo.server env.startInfo.task
      args.file env.now env.auth env.uploadResp env.uploaded hc1tok hT hc1exp hU
    simp only [compressHandler, hstart, hurl, hup, hproc, hdl, hdel, hK, ite_true, ite_false,
      Bool.false_eq_true, compressUploadEvent]
    rfl
  · have hurl' : jsStartsWith args.file "http" = false := by
      revert hurl; cases jsStartsWith args.file "http" <;> simp
    have hup := uploadFile_cached c1 env.auth.token env.startInfo.server env.startInfo.task
      args.file env.now env.auth env.uploadResp env.uploaded hc1tok hT hc1exp hU
    simp only [compressHandler, hstart, hurl', hup, hproc, hdl, hdel, hK, ite_true, ite_false,
      Bool.false_eq_true, compressUploadEvent]
    rfl

theorem mergeUploadLoop_ok (env : MergeEnv) (server task t : String) (c : ClientState)
    (h1 : c.cachedToken = some t) (h2 : t ≠ "") (h3 : env.now < c.tokenExpiry)
    (hU : ∀ j, (env.uploadResp j).ok = true) :
    ∀ (fs : List String) (i : Nat),
      mergeUploadLoop server task env c fs i =
        (.ok (mergeUploadRefs env fs i), c, fs.map (mergeUploadEvent server task t)) := by
  intro fs
  induction fs with
  | nil => intro i; rfl
  | cons f rest ih =>
    intro i
    by_cases hurl : jsStartsWith f "http" = true
    · have hup := uploadUrl_cached c t server task f env.now env.auth (env.uploadResp i)
        (env.uploaded i) h1 h2 h3 (hU i)
      simp only [mergeUploadLoop, hurl, hup, ih (i + 1), ite_true, mergeUploadRefs,
        List.map_cons, mergeUploadEvent]
      rfl
    · have hurl' : jsStartsWith f "http" = false := by
        revert hurl; cases jsStartsWith f "http" <;> simp
      have hup := uploadFile_cached c t server task f env.now env.auth (env.uploadResp i)
        (env.uploaded i) h1 h2 h3 (hU i)
      simp only [mergeUploadLoop, hurl', hup, ih (i + 1), ite_true, ite_false,
        Bool.false_eq_true, mergeUploadRefs, List.map_cons, mergeUploadEvent]
      rfl

theorem mergeHandler_fullRun (files : List String) (output pk sk : String) (env : MergeEnv)
    (hA : env.auth.ok = true) (hT : env.auth.token ≠ "")
    (hS : env.startResp.ok = true) (hU : ∀ j, (env.uploadResp j).ok = true)
    (hP : env.processResp.ok = true) (hD : env.downloadResp.ok = true) :
    mergeHandler files output (mkClient pk sk false) env =
      (.ok [("text",
        "PDFs merged successfully!\nOutput: " ++ output ++
        "\nFiles merged: " ++ toString files.length)],
       clientAfterAuth pk sk false env.now env.auth.token,
       [pdfAuthEvent pk, mergeStartEvent env] ++
       files.map (mergeUploadEvent env.startInfo.server env.startInfo.task env.auth.token) ++
       [mergeProcessEvent env (mergeUploadRefs env files 0)] ++
       mergeTeardownEvents output env) := by
  have hstart := startTask_fresh pk sk false "merge" "us" env.now env.auth env.startResp
    env.startInfo hA hS
  set c1 := clientAfterAuth pk sk false env.now env.auth.token with hc1
  have hc1tok : c1.cachedToken = some env.auth.token := rfl
  have hc1exp : env.now < c1.tokenExpiry := clientAfterAuth_expiry_lt pk sk false env.now _
  have hloop := mergeUploadLoop_ok env env.startInfo.server env.startInfo.task env.auth.token
    c1 hc1tok hT hc1exp hU files 0
  have hproc := processFiles_cached c1 env.auth.token env.startInfo.server env.startInfo.task
    "merge" (mergeUploadRefs env files 0) [] env.now env.auth env.processResp
    env.processResult hc1tok hT hc1exp hP
  have hdl := downloadResult_cached c1 env.auth.token env.startInfo.server env.startInfo.task
    output env.now env.auth env.downloadResp hc1tok hT hc1exp hD
  have hdel := deleteTask_cached c1 env.auth.token env.startInfo.server env.startInfo.task
    env.now env.auth env.deleteResp hc1tok hT hc1exp
  simp only [mergeHandler, hstart, hloop, hproc, hdl, hdel, ite_true]
  simp [pdfAuthEvent, mergeStartEvent, mergeProcessEvent, mergeTeardownEvents, mkClient]

theorem mergeUploadRefs_get? (env : MergeEnv) :
    ∀ (fs : List String) (k i : Nat),
      (mergeUploadRefs env fs k).get? i =
        (fs.get? i).map (fun f =>
          { server_filename := (env.uploaded (k + i)).server_filename
            filename := basename f }) := by
  intro fs
  induction fs with
  | nil => intro k i; cases i <;> rfl
  | cons f rest ih =>
    intro k i
    cases i with
    | zero => simp [mergeUploadRefs]
    | succ j =>
      have := ih (k + 1) j
      simp only [mergeUploadRefs, List.get?_cons_succ, this]
      have harith : k + 1 + j = k + (j + 1) := by omega
      rw [harith]

theorem uploadPayloads_map_mergeUploadEvent (server task t : String) :
    ∀ fs : List String,
      uploadPayloads (fs.map (mergeUploadEvent server task t)) =
        fs.map (fun f =>
          if jsStartsWith f "http" then UploadPayload.cloudFile task f
          else UploadPayload.fileStream task f) := by
  intro fs
  induction fs with
  | nil => rfl
  | cons f rest ih =>
    by_cases hurl : jsStartsWith f "http" = true
    · simp only [List.map_cons, uploadPayloads, mergeUploadEvent, hurl, ite_true] at *
      simp [List.filterMap_cons, ih]
    · have hurl' : jsStartsWith f "http" = false := by
        revert hurl; cases jsStartsWith f "http" <;> simp
      simp only [List.map_cons, uploadPayloads, mergeUploadEvent, hurl', ite_false,
        Bool.false_eq_true] at *
      simp [List.filterMap_cons, ih]

theorem getToken_ok_of (c : ClientState) (now : Int) (resp : AuthResponse)
    (h : hasValidCachedToken c now = true ∨ resp.ok = true) :
    ∃ t c' tr, getToken c now resp = (.ok t, c', tr) ∧
      (hasValidCachedToken c' now = true ∨ resp.ok = true) := by
  cases hc : c.cachedToken with
  | some t =>
    by_cases hv : t ≠ "" ∧ now < c.tokenExpiry
    · exact ⟨t, c, [], by simp [getToken, hc, hv.1, hv.2], Or.inl (by simp [hasValidCachedToken, hc, hv.1, hv.2])⟩
    · have hok : resp.ok = true := by
        rcases h with h | h
        · exfalso; apply hv
          simp only [hasValidCachedToken, hc, Bool.and_eq_true, decide_eq_true_eq] at h
          exact h
        · exact h
      refine ⟨resp.token,
        { c with cachedToken := some resp.token
                 tokenExpiry := now + 2 * 60 * 60 * 1000 - 5 * 60 * 1000 },
        [Event.request (Request.auth (c.apiBase ++ "/v1/auth") c.auth.public_key)],
        ?_, Or.inr hok⟩
      simp [getToken, hc, hv, hok]
  | none =>
    have hok : resp.ok = true := by
      rcases h with h | h
      · simp [hasValidCachedToken, hc] at h
      · exact h
    exact ⟨resp.token,
      { c with cachedToken := some resp.token
               tokenExpiry := now + 2 * 60 * 60 * 1000 - 5 * 60 * 1000 },
      [Event.request (Request.auth (c.apiBase ++ "/v1/auth") c.auth.public_key)],
      by simp [getToken, hc, hok], Or.inr hok⟩

theorem getToken_apiBase (c : ClientState) (now : Int) (resp : AuthResponse) :
    (getToken c now resp).2.1.apiBase = c.apiBase := by
  cases hc : c.cachedToken with
  | some t =>
    by_cases hv : t ≠ "" ∧ now < c.tokenExpiry
    · simp [getToken, hc, hv.1, hv.2]
    · cases hr : resp.ok <;> simp [getToken, hc, hv, hr]
  | none => cases hr : resp.ok <;> simp [getToken, hc, hr]

theorem getToken_events_onBase (c : ClientState) (now : Int) (resp : AuthResponse) :
    ∀ e ∈ (getToken c now resp).2.2, ∀ u, eventUrl e = some u →
      ∃ s, u = c.apiBase ++ s := by
  intro e he u hu
  have hee : e = Event.request (Request.auth (c.apiBase ++ "/v1/auth") c.auth.public_key) := by
    cases hc : c.cachedToken with
    | some t =>
      by_cases hv : t ≠ "" ∧ now < c.tokenExpiry
      · rw [getToken_cacheHit c t now resp hc hv.1 hv.2] at he
        simp at he
      · cases hr : resp.ok <;> simp [getToken, hc, hv, hr] at he <;> exact he
    | none => cases hr : resp.ok <;> simp [getToken, hc, hr] at he <;> exact he
  subst hee
  simp only [eventUrl, Option.some.injEq] at hu
  exact ⟨"/v1/auth", hu.symm⟩

theorem getToken_no_start_events (c : ClientState) (now : Int) (resp : AuthResponse) :
    ∀ u tok, Event.request (Request.start u tok) ∉ (getToken c now resp).2.2 := by
  intro u tok hmem
  cases hc : c.cachedToken with
  | some t =>
    by_cases hv : t ≠ "" ∧ now < c.tokenExpiry
    · rw [getToken_cacheHit c t now resp hc hv.1 hv.2] at hmem
      simp at hmem
    · cases hr : resp.ok <;> simp [getToken, hc, hv, hr] at hmem
  | none => cases hr : resp.ok <;> simp [getToken, hc, hr] at hmem

theorem uploadPayloads_append (l1 l2 : List Event) :
    uploadPayloads (l1 ++ l2) = uploadPayloads l1 ++ uploadPayloads l2 :=
  List.filterMap_append l1 l2 _

theorem processedFileLists_append (l1 l2 : List Event) :
    processedFileLists (l1 ++ l2) = processedFileLists l1 ++ processedFileLists l2 :=
  List.filterMap_append l1 l2 _

theorem processedFileLists_map_mergeUploadEvent (server task t : String) :
    ∀ fs : List String, processedFileLists (fs.map (mergeUploadEvent server task t)) = [] := by
  intro fs
  induction fs with
  | nil => rfl
  | cons f rest ih =>
    by_cases hurl : jsStartsWith f "http" = true
    · simp only [List.map_cons, processedFileLists, mergeUploadEvent, hurl, ite_true] at *
      simp [List.filterMap_cons, ih]
    · have hurl' : jsStartsWith f "http" = false := by
        revert hurl; cases jsStartsWith f "http" <;> simp
      simp only [List.map_cons, processedFileLists, mergeUploadEvent, hurl', ite_false,
        Bool.false_eq_true] at *
      simp [List.filterMap_cons, ih]

/-- Claim C1 counterexample.  The claim asserts that the second of two
sequential tool operations with the same credential context inside the token
validity window makes no new POST /v1/auth call.  On the code this is false:
the CallToolRequestSchema handler constructs a FRESH ILovePDFClient on every
invocation (src/unnamed/part_000 line 88), so its per-instance token cache is
empty and the second operation authenticates again.  Concretely, with the same
credentials for both calls, the first dispatch (time 0) sends one auth request
and the second dispatch (time 1000, far inside the 6900000 ms validity window
of the token obtained at time 0) also sends one auth request instead of the
zero the claim requires. -/
theorem claim1_counterexample :
    countAuthRequests (dispatchCompressCall sampleCompressArgs sampleEnvVars (okCompressEnv 0)).2 = 1 ∧
    countAuthRequests (dispatchCompressCall sampleCompressArgs sampleEnvVars (okCompressEnv 1000)).2 = 1 ∧
    countAuthRequests (dispatchCompressCall sampleCompressArgs sampleEnvVars (okCompressEnv 1000)).2 ≠ 0 := by
  refine ⟨by decide, by decide, by decide⟩

/-- Claim C1 amended: the token cache is per client instance, not per
credential context.  Within one client instance getToken returns the cached
token without any request whenever a cached, non-empty, unexpired token
exists; every client starts with an empty cache; and consequently one whole
compress_pdf invocation performs exactly one authentication request even
though it calls getToken five times.  Across two sequential tool operations
the dispatcher constructs a fresh client each time, so the second operation
does re-authenticate (see the counterexample). -/
theorem claim1_amended_per_instance_cache :
    (∀ (c : ClientState) (t : String) (now : Int) (resp : AuthResponse),
        c.cachedToken = some t → t ≠ "" → now < c.tokenExpiry →
        getToken c now resp = (.ok t, c, [])) ∧
    (∀ pk sk b, (mkClient pk sk b).cachedToken = none) ∧
    (∀ (args : CompressArgs) (pk sk : String) (env : CompressEnv),
        env.auth.ok = true → env.auth.token ≠ "" → env.startResp.ok = true →
        env.uploadResp.ok = true → env.processResp.ok = true → env.downloadResp.ok = true →
        countAuthRequests (compressHandler args (mkClient pk sk false) env).2.2 = 1) := by
  refine ⟨getToken_cacheHit, fun _ _ _ => rfl, ?_⟩
  intro args pk sk env hA hT hS hU hP hD
  cases hk : args.keep_task
  · rw [compressHandler_fullRun args pk sk env hk hA hT hS hU hP hD]
    rfl
  · rw [compressHandler_keepTask args pk sk env hk hA hT hS hU hP]
    rfl

theorem claim1_amended_witness :
    countAuthRequests (compressHandler { file := "/tmp/in.pdf", output := "/tmp/out.pdf" }
        (mkClient "env_pub" "env_sec" false) (okCompressEnv 0)).2.2 = 1 :=
  claim1_amended_per_instance_cache.2.2
    { file := "/tmp/in.pdf", output := "/tmp/out.pdf" } "env_pub" "env_sec" (okCompressEnv 0)
    rfl (by decide) rfl rfl rfl rfl

/-- Claim C2: every start request sent by startTask uses the region eu when
the client was constructed for the image backend, regardless of the
caller-supplied region, and uses the caller-supplied region unchanged for the
document backend; the override is visible in the URL of the request actually
sent. -/
theorem claim2_image_region_override (c : ClientState) (tool region : String) (now : Int)
    (resp : AuthResponse) (sresp : HttpResponse) (info : TaskInfo) :
    ∀ u tok, Event.request (Request.start u tok) ∈
        (startTask c tool region now resp sresp info).2.2 →
      u = c.apiBase ++ "/v1/start/" ++ tool ++ "/" ++
        (if c.isImageTool then "eu" else region) := by
  intro u tok hmem
  rcases hg : getToken c now resp with ⟨r, c', tr⟩
  have hnos : Event.request (Request.start u tok) ∉ tr := by
    have := getToken_no_start_events c now resp u tok
    rw [hg] at this
    exact this
  cases r with
  | error e0 =>
    simp only [startTask, hg] at hmem
    exact absurd hmem hnos
  | ok token =>
    simp only [startTask, hg] at hmem
    cases hok : sresp.ok <;> simp only [hok, ite_true, ite_false, Bool.false_eq_true] at hmem <;>
      rcases List.mem_append.mp hmem with h | h
    · exact absurd h hnos
    · simp only [List.mem_singleton, Event.request.injEq, Request.start.injEq] at h
      exact h.1
    · exact absurd h hnos
    · simp only [List.mem_singleton, Event.request.injEq, Request.start.injEq] at h
      exact h.1

theorem claim2_witness :
    "https://api.iloveimg.com/v1/start/compress/eu" =
      (mkClient "p" "s" true).apiBase ++ "/v1/start/" ++ "compress" ++ "/" ++
        (if (mkClient "p" "s" true).isImageTool then "eu" else "myregion") :=
  claim2_image_region_override (mkClient "p" "s" true) "compress" "myregion" 0 okAuth okResp
    sampleTaskInfo "https://api.iloveimg.com/v1/start/compress/eu" "tok1" (by decide)

/-- Claim C3: when neither a per-call credential pair nor a process-wide
environment credential pair is present, the dispatcher returns the early
error result: isError is true, the message text starts with the literal
prefix Error: followed by the help text, no client is constructed and the
invocation produces no events (there is no network call). -/
theorem claim3_missing_credentials (iit : Bool) (aip ap as : Option String) (env : EnvVars)
    (h1 : jsStr ap = "") (h2 : jsStr aip = "") (h3 : jsStr as = "")
    (h4 : jsStr env.ILOVEPDF_PUBLIC_KEY = "") (h5 : jsStr env.PUBLIC_KEY = "")
    (h6 : jsStr env.ILOVEPDF_SECRET_KEY = "") (h7 : jsStr env.SECRET_KEY = "") :
    dispatchCredentials iit aip ap as env =
      DispatchOutcome.errorResult
        { content := [{ type := "text"
                        text := "Error: " ++ (if iit then imageHelpText else pdfHelpText) }]
          isError := true } ∧
    dispatchedClient (dispatchCredentials iit aip ap as env) = none ∧
    (∀ tr, dispatchRunEvents (dispatchCredentials iit aip ap as env) tr = []) ∧
    jsStartsWith ("Error: " ++ (if iit then imageHelpText else pdfHelpText)) "Error: " = true := by
  have hd : dispatchCredentials iit aip ap as env =
      DispatchOutcome.errorResult
        { content := [{ type := "text"
                        text := "Error: " ++ (if iit then imageHelpText else pdfHelpText) }]
          isError := true } := by
    simp [dispatchCredentials, perCallPublicKey, jsOr, h1, h2, h3, h4, h5, h6, h7]
  refine ⟨hd, by rw [hd]; rfl, fun tr => by rw [hd]; rfl, ?_⟩
  cases iit <;> decide

theorem claim3_witness :
    dispatchCredentials false none none none {} =
      DispatchOutcome.errorResult
        { content := [{ type := "text", text := "Error: " ++ pdfHelpText }], isError := true } := by
  have h := claim3_missing_credentials false none none none {} rfl rfl rfl rfl rfl rfl rfl
  simpa using h.1

/-- Claim C4: in a successful merge_pdf run the files are uploaded
sequentially in exactly the caller-supplied order (the upload payloads of the
trace are the input list mapped in order), the file-reference list passed to
the single process invocation is the accumulated reference list, and the i-th
entry of that list pairs the server filename of the i-th upload with the
basename of the i-th input file. -/
theorem claim4_merge_order (files : List String) (output pk sk : String) (env : MergeEnv)
    (hA : env.auth.ok = true) (hT : env.auth.token ≠ "")
    (hS : env.startResp.ok = true) (hU : ∀ j, (env.uploadResp j).ok = true)
    (hP : env.processResp.ok = true) (hD : env.downloadResp.ok = true) :
    uploadPayloads (mergeHandler files output (mkClient pk sk false) env).2.2 =
      files.map (fun f =>
        if jsStartsWith f "http" then UploadPayload.cloudFile env.startInfo.task f
        else UploadPayload.fileStream env.startInfo.task f) ∧
    processedFileLists (mergeHandler files output (mkClient pk sk false) env).2.2 =
      [mergeUploadRefs env files 0] ∧
    ∀ i, (mergeUploadRefs env files 0).get? i =
      (files.get? i).map (fun f =>
        { server_filename := (env.uploaded i).server_filename
          filename := basename f }) := by
  have hm := mergeHandler_fullRun files output pk sk env hA hT hS hU hP hD
  refine ⟨?_, ?_, ?_⟩
  · rw [hm]
    have e1 : uploadPayloads [pdfAuthEvent pk, mergeStartEvent env] = [] := rfl
    have e2 : uploadPayloads [mergeProcessEvent env (mergeUploadRefs env files 0)] = [] := rfl
    have e3 : uploadPayloads (mergeTeardownEvents output env) = [] := rfl
    rw [uploadPayloads_append, uploadPayloads_append, uploadPayloads_append, e1, e2, e3,
      uploadPayloads_map_mergeUploadEvent env.startInfo.server env.startInfo.task
        env.auth.token files]
    simp
  · rw [hm]
    have f1 : processedFileLists [pdfAuthEvent pk, mergeStartEvent env] = [] := rfl
    have f2 : processedFileLists [mergeProcessEvent env (mergeUploadRefs env files 0)] =
        [mergeUploadRefs env files 0] := rfl
    have f3 : processedFileLists (mergeTeardownEvents output env) = [] := rfl
    rw [processedFileLists_append, processedFileLists_append, processedFileLists_append,
      f1, f2, f3,
      processedFileLists_map_mergeUploadEvent env.startInfo.server env.startInfo.task
        env.auth.token files]
    rfl
  · intro i
    simpa using mergeUploadRefs_get? env files 0 i

theorem claim4_witness :
    uploadPayloads (mergeHandler ["a.pdf", "https://x.com/b.pdf"] "/tmp/m.pdf"
        (mkClient "p" "s" false) okMergeEnv).2.2 =
      [UploadPayload.fileStream "task1" "a.pdf",
       UploadPayload.cloudFile "task1" "https://x.com/b.pdf"] ∧
    (mergeUploadRefs okMergeEnv ["a.pdf", "https://x.com/b.pdf"] 0).get? 1 =
      some { server_filename := "sf1", filename := "b.pdf" } := by
  have h := claim4_merge_order ["a.pdf", "https://x.com/b.pdf"] "/tmp/m.pdf" "p" "s" okMergeEnv
    rfl (by decide) rfl (fun j => rfl) rfl rfl
  exact ⟨h.1.trans (by decide), (h.2.2 1).trans (by decide)⟩

/-- Claim C5 counterexample.  The claim says the URL upload variant is used if
and only if the file reference starts with an HTTP(S) scheme.  The code tests
only startsWith("http") (src/src/tools/core.ts line 36), so the local-looking
reference httpdocs/a.pdf, which starts with no HTTP(S) scheme, is nevertheless
sent through the URL variant (cloud_file form field). -/
theorem claim5_counterexample :
    uploadPayloads (compressHandler { file := "httpdocs/a.pdf", output := "/tmp/o.pdf" }
        (mkClient "p" "s" false) (okCompressEnv 0)).2.2 =
      [UploadPayload.cloudFile "task1" "httpdocs/a.pdf"] ∧
    specUsesHttpScheme "httpdocs/a.pdf" = false := by
  exact ⟨by decide, by decide⟩

/-- Claim C5 amended: the upload variant is selected by the literal
four-character test startsWith("http"), not by a real HTTP(S)-scheme check:
the URL variant (cloud_file) is used iff the reference starts with "http"
(hence also for references such as httpdocs/a.pdf), otherwise the multipart
file-stream variant is used. -/
theorem claim5_amended_literal_http_test (args : CompressArgs) (pk sk : String)
    (env : CompressEnv)
    (hA : env.auth.ok = true) (hT : env.auth.token ≠ "")
    (hS : env.startResp.ok = true) (hU : env.uploadResp.ok = true)
    (hP : env.processResp.ok = true) (hD : env.downloadResp.ok = true) :
    uploadPayloads (compressHandler args (mkClient pk sk false) env).2.2 =
      [if jsStartsWith args.file "http" then UploadPayload.cloudFile env.startInfo.task args.file
       else UploadPayload.fileStream env.startInfo.task args.file] := by
  cases hk : args.keep_task
  · rw [compressHandler_fullRun args pk sk env hk hA hT hS hU hP hD]
    rfl
  · rw [compressHandler_keepTask args pk sk env hk hA hT hS hU hP]
    rfl

theorem claim5_amended_witness :
    uploadPayloads (compressHandler { file := "/local/x.pdf", output := "/tmp/o.pdf" }
        (mkClient "p" "s" false) (okCompressEnv 0)).2.2 =
      [UploadPayload.fileStream "task1" "/local/x.pdf"] :=
  (claim5_amended_literal_http_test { file := "/local/x.pdf", output := "/tmp/o.pdf" }
    "p" "s" (okCompressEnv 0) rfl (by decide) rfl rfl rfl rfl).trans (by decide)

/-- Claim C6: whenever the cached expiry instant has passed (or no token was
ever cached, since a fresh client has expiry 0) and the backend authenticates
successfully, getToken sends exactly one POST /v1/auth request and caches the
returned token with expiry equal to the issuance time plus two hours minus the
five-minute safety margin, in milliseconds. -/
theorem claim6_expiry_and_single_refresh :
    (∀ (c : ClientState) (now : Int) (resp : AuthResponse),
       c.tokenExpiry ≤ now → resp.ok = true →
       getToken c now resp =
         (.ok resp.token,
          { c with cachedToken := some resp.token,
                   tokenExpiry := now + 2 * 60 * 60 * 1000 - 5 * 60 * 1000 },
          [Event.request (Request.auth (c.apiBase ++ "/v1/auth") c.auth.public_key)])) ∧
    (∀ (c : ClientState) (now : Int) (resp : AuthResponse),
       c.cachedToken = none → resp.ok = true →
       getToken c now resp =
         (.ok resp.token,
          { c with cachedToken := some resp.token,
                   tokenExpiry := now + 2 * 60 * 60 * 1000 - 5 * 60 * 1000 },
          [Event.request (Request.auth (c.apiBase ++ "/v1/auth") c.auth.public_key)])) :=
  ⟨getToken_expired, getToken_noCache⟩

theorem claim6_witness :
    getToken expiredClient 100 okAuth =
      (.ok okAuth.token,
       { expiredClient with cachedToken := some okAuth.token,
                            tokenExpiry := 100 + 2 * 60 * 60 * 1000 - 5 * 60 * 1000 },
       [Event.request (Request.auth (expiredClient.apiBase ++ "/v1/auth")
          expiredClient.auth.public_key)]) :=
  claim6_expiry_and_single_refresh.1 expiredClient 100 okAuth (by decide) rfl

/-- Claim C7: deleteTask never surfaces a backend failure: as long as a token
is available (a valid cached token, or a successful auth response), the DELETE
response is ignored entirely, so deleting any task id succeeds, and deleting
the same task id twice in a row (e.g. an already-deleted task answered with
404 both times) also succeeds silently. -/
theorem claim7_delete_best_effort (c : ClientState) (server task : String) (now : Int)
    (resp : AuthResponse) (dresp1 dresp2 : HttpResponse)
    (h : hasValidCachedToken c now = true ∨ resp.ok = true) :
    (deleteTask c server task now resp dresp1).1 = .ok () ∧
    (deleteTask (deleteTask c server task now resp dresp1).2.1 server task now resp dresp2).1 =
      .ok () := by
  obtain ⟨t, c', tr, hg, h'⟩ := getToken_ok_of c now resp h
  have first : deleteTask c server task now resp dresp1 =
      (.ok (), c', tr ++ [Event.request (Request.deleteTask
        ("https://" ++ server ++ "/v1/task/" ++ task) t)]) := by
    simp [deleteTask, hg]
  obtain ⟨t2, c'', tr2, hg2, h''⟩ := getToken_ok_of c' now resp h'
  constructor
  · rw [first]
  · rw [first]
    simp [deleteTask, hg2]

theorem claim7_witness :
    (deleteTask (mkClient "p" "s" false) "srv" "t1" 0 okAuth notFoundResp).1 = .ok () ∧
    (deleteTask (deleteTask (mkClient "p" "s" false) "srv" "t1" 0 okAuth notFoundResp).2.1
        "srv" "t1" 0 okAuth notFoundResp).1 = .ok () :=
  claim7_delete_best_effort (mkClient "p" "s" false) "srv" "t1" 0 okAuth notFoundResp
    notFoundResp (Or.inr rfl)

/-- Claim C8: a compress_pdf invocation with keep_task set performs neither a
download nor a delete step after a successful process call: the full event
trace consists of exactly the auth, start, upload and process requests (none
of which is a download request, a delete request or a local file write), and
the returned success message reports the task id and the server host of the
started task for later chaining. -/
theorem claim8_keep_task_skips_teardown (args : CompressArgs) (pk sk : String)
    (env : CompressEnv)
    (hK : args.keep_task = true)
    (hA : env.auth.ok = true) (hT : env.auth.token ≠ "")
    (hS : env.startResp.ok = true) (hU : env.uploadResp.ok = true)
    (hP : env.processResp.ok = true) :
    compressHandler args (mkClient pk sk false) env =
      (.ok [("text",
        "PDF compressed (task kept for chaining)!\nTask ID: " ++ env.startInfo.task ++
        "\nServer: " ++ env.startInfo.server ++
        "\nRemaining credits: " ++ toString env.startInfo.remaining_credits ++
        "\n\nNext: Use chain_tasks to apply another tool, then download the result.")],
       clientAfterAuth pk sk false env.now env.auth.token,
       [pdfAuthEvent pk, compressStartEvent env,
        compressUploadEvent args env, compressProcessEvent args env]) ∧
    (∀ e ∈ [pdfAuthEvent pk, compressStartEvent env,
            compressUploadEvent args env, compressProcessEvent args env],
       isTeardownEvent e = false) := by
  refine ⟨compressHandler_keepTask args pk sk env hK hA hT hS hU hP, ?_⟩
  intro e he
  simp only [List.mem_cons, List.not_mem_nil, or_false] at he
  rcases he with rfl | rfl | rfl | rfl
  · rfl
  · rfl
  · cases hurl : jsStartsWith args.file "http" <;>
      simp [compressUploadEvent, isTeardownEvent, hurl]
  · rfl

theorem claim8_witness :
    compressHandler { file := "/tmp/in.pdf", output := "/tmp/out.pdf", keep_task := true }
        (mkClient "p" "s" false) (okCompressEnv 0) =
      (.ok [("text",
        "PDF compressed (task kept for chaining)!\nTask ID: task1\nServer: api1.ilovepdf.com\nRemaining credits: 100\n\nNext: Use chain_tasks to apply another tool, then download the result.")],
       clientAfterAuth "p" "s" false 0 "tok1",
       [pdfAuthEvent "p", compressStartEvent (okCompressEnv 0),
        compressUploadEvent { file := "/tmp/in.pdf", output := "/tmp/out.pdf", keep_task := true }
          (okCompressEnv 0),
        compressProcessEvent { file := "/tmp/in.pdf", output := "/tmp/out.pdf", keep_task := true }
          (okCompressEnv 0)]) := by
  have h := claim8_keep_task_skips_teardown
    { file := "/tmp/in.pdf", output := "/tmp/out.pdf", keep_task := true }
    "p" "s" (okCompressEnv 0) rfl rfl (by decide) rfl rfl rfl
  exact h.1.trans (by rfl)

/-- Claim C10: whenever at least one of the two per-call credentials is falsy
(missing or empty), the dispatcher replaces BOTH keys with the
environment-sourced values, so a partially supplied per-call pair is never
combined with an environment key: any client that gets constructed uses
exactly the environment public key and the environment secret key. -/
theorem claim10_partial_credentials_use_env (iit : Bool) (aip ap as : Option String)
    (env : EnvVars)
    (h : perCallPublicKey iit aip ap = "" ∨ jsStr as = "") :
    ∀ pk sk b, dispatchCredentials iit aip ap as env = DispatchOutcome.runTool pk sk b →
      pk = jsOr (jsStr env.ILOVEPDF_PUBLIC_KEY) (jsStr env.PUBLIC_KEY) ∧
      sk = jsOr (jsStr env.ILOVEPDF_SECRET_KEY) (jsStr env.SECRET_KEY) := by
  intro pk sk b hrun
  simp only [dispatchCredentials, if_pos h] at hrun
  split at hrun
  · exact absurd hrun (by simp)
  · cases hrun
    exact ⟨rfl, rfl⟩

theorem claim10_witness :
    "env_pub" = jsOr (jsStr sampleEnvVars.ILOVEPDF_PUBLIC_KEY) (jsStr sampleEnvVars.PUBLIC_KEY) ∧
    "env_sec" = jsOr (jsStr sampleEnvVars.ILOVEPDF_SECRET_KEY) (jsStr sampleEnvVars.SECRET_KEY) :=
  claim10_partial_credentials_use_env false none (some "callerpub") none sampleEnvVars
    (Or.inr rfl) "env_pub" "env_sec" false (by decide)

theorem strAppend_assoc (a b c : String) : (a ++ b) ++ c = a ++ (b ++ c) := by
  rcases a with ⟨la⟩
  rcases b with ⟨lb⟩
  rcases c with ⟨lc⟩
  show String.mk ((la ++ lb) ++ lc) = String.mk (la ++ (lb ++ lc))
  rw [List.append_assoc]

theorem startTask_onBase (c : ClientState) (tool region : String) (now : Int)
    (resp : AuthResponse) (sresp : HttpResponse) (info : TaskInfo) :
    (startTask c tool region now resp sresp info).2.1.apiBase = c.apiBase ∧
    ∀ e ∈ (startTask c tool region now resp sresp info).2.2, ∀ u, eventUrl e = some u →
      ∃ s, u = c.apiBase ++ s := by
  rcases hg : getToken c now resp with ⟨r, c', tr⟩
  have hb := getToken_apiBase c now resp
  rw [hg] at hb
  have hev := getToken_events_onBase c now resp
  rw [hg] at hev
  cases r with
  | error e0 =>
    refine ⟨by simp only [startTask, hg]; exact hb, ?_⟩
    intro e he u hu
    simp only [startTask, hg] at he
    exact hev e he u hu
  | ok token =>
    constructor
    · simp only [startTask, hg]
      cases hok : sresp.ok <;>
        simp only [hok, ite_true, ite_false, Bool.false_eq_true] <;> exact hb
    · intro e he u hu
      simp only [startTask, hg] at he
      cases hok : sresp.ok <;>
        simp only [hok, ite_true, ite_false, Bool.false_eq_true] at he <;>
        rcases List.mem_append.mp he with h | h
      · exact hev e h u hu
      · simp only [List.mem_singleton] at h
        subst h
        simp only [eventUrl, Option.some.injEq] at hu
        exact ⟨"/v1/start/" ++ tool ++ "/" ++ (if c.isImageTool then "eu" else region),
          by rw [← hu]; simp [strAppend_assoc]⟩
      · exact hev e h u hu
      · simp only [List.mem_singleton] at h
        subst h
        simp only [eventUrl, Option.some.injEq] at hu
        exact ⟨"/v1/start/" ++ tool ++ "/" ++ (if c.isImageTool then "eu" else region),
          by rw [← hu]; simp [strAppend_assoc]⟩

theorem connectTask_onBase (c : ClientState) (pt nt : String) (now : Int)
    (resp : AuthResponse) (nresp : HttpResponse)
    (res : String × String × List (String × String)) :
    (connectTask c pt nt now resp nresp res).2.1.apiBase = c.apiBase ∧
    ∀ e ∈ (connectTask c pt nt now resp nresp res).2.2, ∀ u, eventUrl e = some u →
      ∃ s, u = c.apiBase ++ s := by
  rcases hg : getToken c now resp with ⟨r, c', tr⟩
  have hb := getToken_apiBase c now resp
  rw [hg] at hb
  have hev := getToken_events_onBase c now resp
  rw [hg] at hev
  cases r with
  | error e0 =>
    refine ⟨by simp only [connectTask, hg]; exact hb, ?_⟩
    intro e he u hu
    simp only [connectTask, hg] at he
    exact hev e he u hu
  | ok token =>
    constructor
    · simp only [connectTask, hg]
      cases hok : nresp.ok <;>
        simp only [hok, ite_true, ite_false, Bool.false_eq_true] <;> exact hb
    · intro e he u hu
      simp only [connectTask, hg] at he
      cases hok : nresp.ok <;>
        simp only [hok, ite_true, ite_false, Bool.false_eq_true] at he <;>
        rcases List.mem_append.mp he with h | h
      · exact hev e h u hu
      · simp only [List.mem_singleton] at h
        subst h
        simp only [eventUrl, Option.some.injEq] at hu
        exact ⟨"/v1/task/next", by rw [← hu]⟩
      · exact hev e h u hu
      · simp only [List.mem_singleton] at h
        subst h
        simp only [eventUrl, Option.some.injEq] at hu
        exact ⟨"/v1/task/next", by rw [← hu]⟩

theorem createSignature_onBase (c : ClientState) (params : SignatureParams) (now : Int)
    (resp : AuthResponse) (sresp : HttpResponse) (sigTok : String) :
    (createSignature c params now resp sresp sigTok).2.1.apiBase = c.apiBase ∧
    ∀ e ∈ (createSignature c params now resp sresp sigTok).2.2, ∀ u, eventUrl e = some u →
      ∃ s, u = c.apiBase ++ s := by
  rcases hg : getToken c now resp with ⟨r, c', tr⟩
  have hb := getToken_apiBase c now resp
  rw [hg] at hb
  have hev := getToken_events_onBase c now resp
  rw [hg] at hev
  cases r with
  | error e0 =>
    refine ⟨by simp only [createSignature, hg]; exact hb, ?_⟩
    intro e he u hu
    simp only [createSignature, hg] at he
    exact hev e he u hu
  | ok token =>
    constructor
    · simp only [createSignature, hg]
      cases hok : sresp.ok <;>
        simp only [hok, ite_true, ite_false, Bool.false_eq_true] <;> exact hb
    · intro e he u hu
      simp only [createSignature, hg] at he
      cases hok : sresp.ok <;>
        simp only [hok, ite_true, ite_false, Bool.false_eq_true] at he <;>
        rcases List.mem_append.mp he with h | h
      · exact hev e h u hu
      · simp only [List.mem_singleton] at h
        subst h
        simp only [eventUrl, Option.some.injEq] at hu
        exact ⟨"/v1/signature", by rw [← hu]⟩
      · exact hev e h u hu
      · simp only [List.mem_singleton] at h
        subst h
        simp only [eventUrl, Option.some.injEq] at hu
        exact ⟨"/v1/signature", by rw [← hu]⟩

theorem listSignatures_onBase (c : ClientState) (page : Option Int) (status : Option String)
    (now : Int) (resp : AuthResponse) (lresp : HttpResponse) (res : String) :
    (listSignatures c page status now resp lresp res).2.1.apiBase = c.apiBase ∧
    ∀ e ∈ (listSignatures c page status now resp lresp res).2.2, ∀ u, eventUrl e = some u →
      ∃ s, u = c.apiBase ++ s := by
  rcases hg : getToken c now resp with ⟨r, c', tr⟩
  have hb := getToken_apiBase c now resp
  rw [hg] at hb
  have hev := getToken_events_onBase c now resp
  rw [hg] at hev
  cases r with
  | error e0 =>
    refine ⟨by simp only [listSignatures, hg]; exact hb, ?_⟩
    intro e he u hu
    simp only [listSignatures, hg] at he
    exact hev e he u hu
  | ok token =>
    constructor
    · simp only [listSignatures, hg]
      cases hok : lresp.ok <;>
        simp only [hok, ite_true, ite_false, Bool.false_eq_true] <;> exact hb
    · intro e he u hu
      simp only [listSignatures, hg] at he
      cases hok : lresp.ok <;>
        simp only [hok, ite_true, ite_false, Bool.false_eq_true] at he <;>
        rcases List.mem_append.mp he with h | h
      · exact hev e h u hu
      · simp only [List.mem_singleton] at h
        subst h
        simp only [eventUrl, Option.some.injEq] at hu
        exact ⟨"/v1/signature?" ++ listSignaturesQuery c page status,
          by rw [← hu]; simp [strAppend_assoc]⟩
      · exact hev e h u hu
      · simp only [List.mem_singleton] at h
        subst h
        simp only [eventUrl, Option.some.injEq] at hu
        exact ⟨"/v1/signature?" ++ listSignaturesQuery c page status,
          by rw [← hu]; simp [strAppend_assoc]⟩

theorem getSignatureStatus_onBase (c : ClientState) (st : String) (now : Int)
    (resp : AuthResponse) (gresp : HttpResponse) (res : String) :
    (getSignatureStatus c st now resp gresp res).2.1.apiBase = c.apiBase ∧
    ∀ e ∈ (getSignatureStatus c st now resp gresp res).2.2, ∀ u, eventUrl e = some u →
      ∃ s, u = c.apiBase ++ s := by
  rcases hg : getToken c now resp with ⟨r, c', tr⟩
  have hb := getToken_apiBase c now resp
  rw [hg] at hb
  have hev := getToken_events_onBase c now resp
  rw [hg] at hev
  cases r with
  | error e0 =>
    refine ⟨by simp only [getSignatureStatus, hg]; exact hb, ?_⟩
    intro e he u hu
    simp only [getSignatureStatus, hg] at he
    exact hev e he u hu
  | ok token =>
    constructor
    · simp only [getSignatureStatus, hg]
      cases hok : gresp.ok <;>
        simp only [hok, ite_true, ite_false, Bool.false_eq_true] <;> exact hb
    · intro e he u hu
      simp only [getSignatureStatus, hg] at he
      cases hok : gresp.ok <;>
        simp only [hok, ite_true, ite_false, Bool.false_eq_true] at he <;>
        rcases List.mem_append.mp he with h | h
      · exact hev e h u hu
      · simp only [List.mem_singleton] at h
        subst h
        simp only [eventUrl, Option.some.injEq] at hu
        exact ⟨"/v1/signature/" ++ st, by rw [← hu]; simp [strAppend_assoc]⟩
      · exact hev e h u hu
      · simp only [List.mem_singleton] at h
        subst h
        simp only [eventUrl, Option.some.injEq] at hu
        exact ⟨"/v1/signature/" ++ st, by rw [← hu]; simp [strAppend_assoc]⟩

theorem voidSignature_onBase (c : ClientState) (st : String) (now : Int)
    (resp : AuthResponse) (vresp : HttpResponse) :
    (voidSignature c st now resp vresp).2.1.apiBase = c.apiBase ∧
    ∀ e ∈ (voidSignature c st now resp vresp).2.2, ∀ u, eventUrl e = some u →
      ∃ s, u = c.apiBase ++ s := by
  rcases hg : getToken c now resp with ⟨r, c', tr⟩
  have hb := getToken_apiBase c now resp
  rw [hg] at hb
  have hev := getToken_events_onBase c now resp
  rw [hg] at hev
  cases r with
  | error e0 =>
    refine ⟨by simp only [voidSignature, hg]; exact hb, ?_⟩
    intro e he u hu
    simp only [voidSignature, hg] at he
    exact hev e he u hu
  | ok token =>
    constructor
    · simp only [voidSignature, hg]
      cases hok : vresp.ok <;>
        simp only [hok, ite_true, ite_false, Bool.false_eq_true] <;> exact hb
    · intro e he u hu
      simp only [voidSignature, hg] at he
      cases hok : vresp.ok <;>
        simp only [hok, ite_true, ite_false, Bool.false_eq_true] at he <;>
        rcases List.mem_append.mp he with h | h
      · exact hev e h u hu
      · simp only [List.mem_singleton] at h
        subst h
        simp only [eventUrl, Option.some.injEq] at hu
        exact ⟨"/v1/signature/" ++ st ++ "/void", by rw [← hu]; simp [strAppend_assoc]⟩
      · exact hev e h u hu
      · simp only [List.mem_singleton] at h
        subst h
        simp only [eventUrl, Option.some.injEq] at hu
        exact ⟨"/v1/signature/" ++ st ++ "/void", by rw [← hu]; simp [strAppend_assoc]⟩

theorem sendSignatureReminder_onBase (c : ClientState) (st : String) (now : Int)
    (resp : AuthResponse) (rresp : HttpResponse) :
    (sendSignatureReminder c st now resp rresp).2.1.apiBase = c.apiBase ∧
    ∀ e ∈ (sendSignatureReminder c st now resp rresp).2.2, ∀ u, eventUrl e = some u →
      ∃ s, u = c.apiBase ++ s := by
  rcases hg : getToken c now resp with ⟨r, c', tr⟩
  have hb := getToken_apiBase c now resp
  rw [hg] at hb
  have hev := getToken_events_onBase c now resp
  rw [hg] at hev
  cases r with
  | error e0 =>
    refine ⟨by simp only [sendSignatureReminder, hg]; exact hb, ?_⟩
    intro e he u hu
    simp only [sendSignatureReminder, hg] at he
    exact hev e he u hu
  | ok token =>
    constructor
    · simp only [sendSignatureReminder, hg]
      cases hok : rresp.ok <;>
        simp only [hok, ite_true, ite_false, Bool.false_eq_true] <;> exact hb
    · intro e he u hu
      simp only [sendSignatureReminder, hg] at he
      cases hok : rresp.ok <;>
        simp only [hok, ite_true, ite_false, Bool.false_eq_true] at he <;>
        rcases List.mem_append.mp he with h | h
      · exact hev e h u hu
      · simp only [List.mem_singleton] at h
        subst h
        simp only [eventUrl, Option.some.injEq] at hu
        exact ⟨"/v1/signature/" ++ st ++ "/remind", by rw [← hu]; simp [strAppend_assoc]⟩
      · exact hev e h u hu
      · simp only [List.mem_singleton] at h
        subst h
        simp only [eventUrl, Option.some.injEq] at hu
        exact ⟨"/v1/signature/" ++ st ++ "/remind", by rw [← hu]; simp [strAppend_assoc]⟩

theorem downloadSignedFiles_onBase (c : ClientState) (st op : String) (now : Int)
    (resp : AuthResponse) (dresp : HttpResponse) :
    (downloadSignedFiles c st op now resp dresp).2.1.apiBase = c.apiBase ∧
    ∀ e ∈ (downloadSignedFiles c st op now resp dresp).2.2, ∀ u, eventUrl e = some u →
      ∃ s, u = c.apiBase ++ s := by
  rcases hg : getToken c now resp with ⟨r, c', tr⟩
  have hb := getToken_apiBase c now resp
  rw [hg] at hb
  have hev := getToken_events_onBase c now resp
  rw [hg] at hev
  cases r with
  | error e0 =>
    refine ⟨by simp only [downloadSignedFiles, hg]; exact hb, ?_⟩
    intro e he u hu
    simp only [downloadSignedFiles, hg] at he
    exact hev e he u hu
  | ok token =>
    constructor
    · simp only [downloadSignedFiles, hg]
      cases hok : dresp.ok <;>
        simp only [hok, ite_true, ite_false, Bool.false_eq_true] <;> exact hb
    · intro e he u hu
      simp only [downloadSignedFiles, hg] at he
      cases hok : dresp.ok
      · simp only [hok, ite_false, Bool.false_eq_true] at he
        rcases List.mem_append.mp he with h | h
        · exact hev e h u hu
        · simp only [List.mem_singleton] at h
          subst h
          simp only [eventUrl, Option.some.injEq] at hu
          exact ⟨"/v1/signature/" ++ st ++ "/download", by rw [← hu]; simp [strAppend_assoc]⟩
      · simp only [hok, ite_true] at he
        rcases List.mem_append.mp he with h | h
        · rcases List.mem_append.mp h with h2 | h2
          · exact hev e h2 u hu
          · simp only [List.mem_singleton] at h2
            subst h2
            simp only [eventUrl, Option.some.injEq] at hu
            exact ⟨"/v1/signature/" ++ st ++ "/download", by rw [← hu]; simp [strAppend_assoc]⟩
        · simp only [List.mem_singleton] at h
          subst h
          simp only [eventUrl] at hu
          exact Option.noConfusion hu

/-- Claim C9: the backend host is fixed at construction by the backend kind
(image clients use api.iloveimg.com, document clients api.ilovepdf.com, two
distinct hosts), and every API-base request a client sends - the auth request
of getToken and the token-bearing start, chain (task/next) and signature
requests - has a URL extending that client state apiBase, which no method
ever changes.  Since every token is cached inside the one client instance
that obtained it, a token obtained from one backend is never sent to the
other. -/
theorem claim9_token_backend_affinity :
    (∀ pk sk, (mkClient pk sk true).apiBase = "https://api.iloveimg.com" ∧
              (mkClient pk sk false).apiBase = "https://api.ilovepdf.com" ∧
              (mkClient pk sk true).apiBase ≠ (mkClient pk sk false).apiBase) ∧
    (∀ (c : ClientState) (now : Int) (resp : AuthResponse),
       (getToken c now resp).2.1.apiBase = c.apiBase ∧
       ∀ e ∈ (getToken c now resp).2.2, ∀ u, eventUrl e = some u →
         ∃ s, u = c.apiBase ++ s) ∧
    (∀ (c : ClientState) (tool region : String) (now : Int) (resp : AuthResponse)
        (sresp : HttpResponse) (info : TaskInfo),
       (startTask c tool region now resp sresp info).2.1.apiBase = c.apiBase ∧
       ∀ e ∈ (startTask c tool region now resp sresp info).2.2, ∀ u, eventUrl e = some u →
         ∃ s, u = c.apiBase ++ s) ∧
    (∀ (c : ClientState) (pt nt : String) (now : Int) (resp : AuthResponse)
        (nresp : HttpResponse) (res : String × String × List (String × String)),
       (connectTask c pt nt now resp nresp res).2.1.apiBase = c.apiBase ∧
       ∀ e ∈ (connectTask c pt nt now resp nresp res).2.2, ∀ u, eventUrl e = some u →
         ∃ s, u = c.apiBase ++ s) ∧
    (∀ (c : ClientState) (params : SignatureParams) (now : Int) (resp : AuthResponse)
        (sresp : HttpResponse) (sigTok : String),
       (createSignature c params now resp sresp sigTok).2.1.apiBase = c.apiBase ∧
       ∀ e ∈ (createSignature c params now resp sresp sigTok).2.2, ∀ u, eventUrl e = some u →
         ∃ s, u = c.apiBase ++ s) ∧
    (∀ (c : ClientState) (page : Option Int) (status : Option String) (now : Int)
        (resp : AuthResponse) (lresp : HttpResponse) (res : String),
       (listSignatures c page status now resp lresp res).2.1.apiBase = c.apiBase ∧
       ∀ e ∈ (listSignatures c page status now resp lresp res).2.2, ∀ u, eventUrl e = some u →
         ∃ s, u = c.apiBase ++ s) ∧
    (∀ (c : ClientState) (st : String) (now : Int) (resp : AuthResponse)
        (gresp : HttpResponse) (res : String),
       (getSignatureStatus c st now resp gresp res).2.1.apiBase = c.apiBase ∧
       ∀ e ∈ (getSignatureStatus c st now resp gresp res).2.2, ∀ u, eventUrl e = some u →
         ∃ s, u = c.apiBase ++ s) ∧
    (∀ (c : ClientState) (st op : String) (now : Int) (resp : AuthResponse)
        (dresp : HttpResponse),
       (downloadSignedFiles c st op now resp dresp).2.1.apiBase = c.apiBase ∧
       ∀ e ∈ (downloadSignedFiles c st op now resp dresp).2.2, ∀ u, eventUrl e = some u →
         ∃ s, u = c.apiBase ++ s) ∧
    (∀ (c : ClientState) (st : String) (now : Int) (resp : AuthResponse)
        (vresp : HttpResponse),
       (voidSignature c st now resp vresp).2.1.apiBase = c.apiBase ∧
       ∀ e ∈ (voidSignature c st now resp vresp).2.2, ∀ u, eventUrl e = some u →
         ∃ s, u = c.apiBase ++ s) ∧
    (∀ (c : ClientState) (st : String) (now : Int) (resp : AuthResponse)
        (rresp : HttpResponse),
       (sendSignatureReminder c st now resp rresp).2.1.apiBase = c.apiBase ∧
       ∀ e ∈ (sendSignatureReminder c st now resp rresp).2.2, ∀ u, eventUrl e = some u →
         ∃ s, u = c.apiBase ++ s) :=
  ⟨fun _ _ => ⟨rfl, rfl, fun h => by
      have h2 : ("https://api.iloveimg.com" : String) = "https://api.ilovepdf.com" := h
      exact absurd h2 (by decide)⟩,
   fun c now resp => ⟨getToken_apiBase c now resp, getToken_events_onBase c now resp⟩,
   fun c tool region now resp sresp info => startTask_onBase c tool region now resp sresp info,
   fun c pt nt now resp nresp res => connectTask_onBase c pt nt now resp nresp res,
   fun c params now resp sresp sigTok => createSignature_onBase c params now resp sresp sigTok,
   fun c page status now resp lresp res => listSignatures_onBase c page status now resp lresp res,
   fun c st now resp gresp res => getSignatureStatus_onBase c st now resp gresp res,
   fun c st op now resp dresp => downloadSignedFiles_onBase c st op now resp dresp,
   fun c st now resp vresp => voidSignature_onBase c st now resp vresp,
   fun c st now resp rresp => sendSignatureReminder_onBase c st now resp rresp⟩

theorem claim9_witness :
    ∃ s, "https://api.ilovepdf.com/v1/auth" = (mkClient "p" "s" false).apiBase ++ s :=
  (claim9_token_backend_affinity.2.1 (mkClient "p" "s" false) 0 okAuth).2
    (Event.request (Request.auth ((mkClient "p" "s" false).apiBase ++ "/v1/auth") "p"))
    (by decide) "https://api.ilovepdf.com/v1/auth" (by decide)
